import Mathlib

/-!
Verification of the commons.systems operational scripts.

This file gives a shallow embedding of the decision logic of the repository's
Python scripts (setup.py, iac.py, claudetool/check_workflows.py,
claudeweb/claudetool/check_workflows.py, check_workflow_status.py,
debug_gcp_deployment.py) and proves properties about them.

External commands and HTTP calls are modelled by their observable results,
which become inputs of the embedded functions; the commands a function issues
become an output trace.  `run_command(cmd, check=False)` returns the stripped
stdout of the command on success and `None` on failure, so a check result is an
`Option String`; Python truthiness of such a value is `pyTruthy`.
-/

/-- Python truthiness of an optional string: `None` and `""` are falsy. -/
def pyTruthy : Option String → Bool
  | none => false
  | some s => s != ""

/-- Python `str(...)` rendering of an optional string (`None` prints as "None"),
as used by f-strings in `format_workflow`. -/
def pyShowOpt : Option String → String
  | none => "None"
  | some s => s

/-- Python `a or b` on optional strings: yields `b` whenever `a` is falsy. -/
def pyOrStr (a b : Option String) : Option String :=
  match a with
  | none => b
  | some s => if s = "" then b else some s

/-- Character-list prefix test, used to embed Python's `pat in s` substring test. -/
def charsLeadMatch : List Char → List Char → Bool
  | [], _ => true
  | _ :: _, [] => false
  | a :: as, b :: bs => a = b && charsLeadMatch as bs

/-- Character-list substring test: the pattern occurs at some position. -/
def charsHasSub (pat : List Char) : List Char → Bool
  | [] => pat.isEmpty
  | c :: rest => charsLeadMatch pat (c :: rest) || charsHasSub pat rest

/-- Python's `pat in s` substring containment on strings. -/
def strHasSub (s pat : String) : Bool :=
  charsHasSub pat.data s.data

/-- Python exceptions relevant to the embedded code paths. -/
inductive PyErr where
  | attributeError
  | typeError
  deriving DecidableEq, Repr

/-- The JSON values produced by Python's `json.loads`. -/
inductive PyJson where
  | null
  | bool (b : Bool)
  | num (n : Int)
  | str (s : String)
  | arr (elems : List PyJson)
  | obj (fields : List (String × PyJson))

/-- Python `==` between a JSON value and a string: true exactly when the value
is a string with the same content. -/
def PyJson.eqStr : PyJson → String → Bool
  | .str s, t => s = t
  | _, _ => false

/-- Lookup of a key in a decoded JSON object (json.loads keeps the last
occurrence of a duplicated key). -/
def objLookup (fields : List (String × PyJson)) (key : String) : Option PyJson :=
  (fields.filterMap fun kv => if kv.1 = key then some kv.2 else none).getLast?

/-- Python `value.get(key, default)`: a dict lookup with default; any non-dict
value raises `AttributeError` (only dicts have `.get`). -/
def pyDictGet (j : PyJson) (key : String) (dflt : PyJson) : Except PyErr PyJson :=
  match j with
  | .obj fields => .ok ((objLookup fields key).getD dflt)
  | _ => .error .attributeError

/-- Python `for x in value`: lists yield their elements, strings their
characters (as one-character strings), dicts their keys; anything else raises
`TypeError`. -/
def pyIter : PyJson → Except PyErr (List PyJson)
  | .arr xs => .ok xs
  | .str s => .ok (s.data.map fun c => .str (String.mk [c]))
  | .obj fields => .ok (fields.map fun kv => .str kv.1)
  | _ => .error .typeError

/-- Result of `run_command('gcloud ... get-iam-policy ... --format=json', check=False)`
followed by `json.loads`: the fetch can yield nothing (command failed or empty
output), a string that raises `json.JSONDecodeError`, or a decoded JSON value. -/
inductive FetchResult where
  | empty
  | undecodable
  | decoded (j : PyJson)

/-- The mutating gcloud commands issued by the provisioning functions of
setup.py and iac.py. -/
inductive SCmd where
  | createPool
  | createProvider
  | updateProvider
  | createSA
  | addBinding
  | createRepo (repoName : String)
  | createSecret
  | addSecretVersion
  | createBucket
  | enableBucketVersioning
  deriving DecidableEq, Repr

/-- Embeds the scanning loop of `create_service_account` (setup.py lines
243-254 = iac.py lines 367-379): iterate the bindings, and for each binding
whose `role` equals `roles/iam.workloadIdentityUser` scan its `members` for the
expected member.  The inner `break` only stops the member scan; the outer loop
continues, so a later malformed binding can still raise.  Only
`json.JSONDecodeError` is caught by the surrounding `try`, so `AttributeError`
and `TypeError` escape. -/
def scanBindingList (member : String) (found : Bool) : List PyJson → Except PyErr Bool
  | [] => .ok found
  | b :: rest =>
      match pyDictGet b "role" .null with
      | .error e => .error e
      | .ok roleVal =>
          if roleVal.eqStr "roles/iam.workloadIdentityUser" then
            match pyDictGet b "members" (.arr []) with
            | .error e => .error e
            | .ok membersVal =>
                match pyIter membersVal with
                | .error e => .error e
                | .ok ms =>
                    scanBindingList member (found || ms.any fun m => m.eqStr member) rest
          else
            scanBindingList member found rest

/-- Embeds `policy.get('bindings', [])` followed by the binding loop. -/
def scanBindings (member : String) (policy : PyJson) : Except PyErr Bool :=
  match pyDictGet policy "bindings" (.arr []) with
  | .error e => .error e
  | .ok bindingsVal =>
      match pyIter bindingsVal with
      | .error e => .error e
      | .ok bs => scanBindingList member false bs

/-- Embeds the computation of `binding_exists` in `create_service_account`
(setup.py lines 241-256 = iac.py lines 366-381): falsy fetch output leaves it
`False`; a `json.JSONDecodeError` is caught and leaves it `False`; any other
exception raised while scanning propagates. -/
def bindingExists (fetch : FetchResult) (member : String) : Except PyErr Bool :=
  match fetch with
  | .empty => .ok false
  | .undecodable => .ok false
  | .decoded j => scanBindings member j

/-- Embeds `create_service_account` (setup.py lines 207-269 = iac.py lines
332-394), identical in both files: the service-account create gated on its
describe check, then the workload-identity binding added when `binding_exists`
is `False`.  Returns the issued commands and the exception, if one escaped. -/
def createServiceAccountRun (saCheck : Option String) (fetch : FetchResult)
    (member : String) : List SCmd × Option PyErr :=
  let createCmds := if pyTruthy saCheck then [] else [SCmd.createSA]
  match bindingExists fetch member with
  | .error e => (createCmds, some e)
  | .ok true => (createCmds, none)
  | .ok false => (createCmds ++ [SCmd.addBinding], none)

/-- A binding dict matching the specification's description: its role is
`roles/iam.workloadIdentityUser` and its members list contains the exact
expected member string. -/
def matchBinding (member : String) (b : PyJson) : Bool :=
  match b with
  | .obj bf =>
      ((objLookup bf "role").getD .null).eqStr "roles/iam.workloadIdentityUser"
        && (match (objLookup bf "members").getD (.arr []) with
            | .arr ms => ms.any fun m => m.eqStr member
            | _ => false)
  | _ => false

/-- Specification-side scan, following the claim's words: scanning the bindings
list of the fetched IAM policy JSON finds a binding whose role is
`roles/iam.workloadIdentityUser` and whose members list contains the exact
expected member string. -/
def specFindsBinding (fetch : FetchResult) (member : String) : Bool :=
  match fetch with
  | .decoded (.obj fields) =>
      match (objLookup fields "bindings").getD (.arr []) with
      | .arr bs => bs.any (matchBinding member)
      | _ => false
  | _ => false

/-- A binding value the Python scan traverses without raising: a dict whose
`members` value (defaulting to `[]`) is a list. -/
def wfBinding (b : PyJson) : Bool :=
  match b with
  | .obj bf =>
      match (objLookup bf "members").getD (.arr []) with
      | .arr _ => true
      | _ => false
  | _ => false

/-- A decoded policy the Python scan traverses without raising: a dict whose
`bindings` value (defaulting to `[]`) is a list of well-formed bindings. -/
def wfPolicy (j : PyJson) : Bool :=
  match j with
  | .obj fields =>
      match (objLookup fields "bindings").getD (.arr []) with
      | .arr bs => bs.all wfBinding
      | _ => false
  | _ => false

/-- Fetch results on which the scan of `create_service_account` cannot raise. -/
def wfFetch : FetchResult → Bool
  | .empty => true
  | .undecodable => true
  | .decoded j => wfPolicy j

/-- Embeds `setup_workload_identity` (setup.py lines 143-205 = iac.py lines
268-330): the pool create gated on the pool describe, the provider create gated
on the provider describe, with an update-oidc issued instead when the provider
already exists. -/
def setupWorkloadIdentityCmds (poolCheck providerCheck : Option String) : List SCmd :=
  (if pyTruthy poolCheck then [] else [SCmd.createPool])
    ++ (if pyTruthy providerCheck then [SCmd.updateProvider] else [SCmd.createProvider])

/-- Embeds the resource-creation portion of `setup_ci_logs_proxy` in setup.py
(lines 271-398): three Artifact Registry repository creates, each gated on its
describe, then the GITHUB_API_TOKEN secret.  When the secret exists the user is
asked whether to update (`updateAnswer`, compared after strip/lower against
"y") and a non-empty `tokenInput` adds a version; when it does not exist, a
non-empty `tokenInput` creates the secret and adds a version, and an empty one
skips creation.  The remainder of the function (lines 400-658) issues only
describe/get-iam-policy and add-iam-policy-binding commands — no create
command for any of these resources — and is omitted from the trace. -/
def setupCiLogsProxyCmds (repoCheck prodCheck prevCheck secretCheck : Option String)
    (updateAnswer tokenInput : String) : List SCmd :=
  (if pyTruthy repoCheck then [] else [SCmd.createRepo "cloud-run-images"])
    ++ (if pyTruthy prodCheck then [] else [SCmd.createRepo "fellspiral-production"])
    ++ (if pyTruthy prevCheck then [] else [SCmd.createRepo "fellspiral-previews"])
    ++ (if pyTruthy secretCheck then
          (if updateAnswer.trim.toLower = "y" && tokenInput != "" then
            [SCmd.addSecretVersion]
          else [])
        else
          (if tokenInput != "" then [SCmd.createSecret, SCmd.addSecretVersion] else []))

/-- Embeds `create_terraform_state_bucket` (iac.py lines 1040-1070): the bucket
create (followed by enabling versioning) gated on the bucket describe; the
final verification describe is not a mutation and is omitted. -/
def createTerraformStateBucketCmds (bucketCheck : Option String) : List SCmd :=
  if pyTruthy bucketCheck then [] else [SCmd.createBucket, SCmd.enableBucketVersioning]

/-- The external commands issued by `enable_apis` in iac.py (lines 210-266). -/
inductive ECmd where
  | setProject
  | enableServiceUsage
  | enableBulk
  deriving DecidableEq, Repr

/-- Embeds `if service_usage_check and "SERVICE_DISABLED" in service_usage_check`
(iac.py line 224): when true, the script prints instructions and exits. -/
def suDisabled (su : Option String) : Bool :=
  match su with
  | none => false
  | some s => (s != "") && strHasSub s "SERVICE_DISABLED"

/-- Embeds `if result and "SERVICE_DISABLED" in result and
"serviceusage.googleapis.com" in result` (iac.py line 260): the retry guard for
the bulk enable command. -/
def bulkRetry (bulk : Option String) : Bool :=
  match bulk with
  | none => false
  | some s =>
      (s != "") && strHasSub s "SERVICE_DISABLED"
        && strHasSub s "serviceusage.googleapis.com"

/-- Embeds `enable_apis` of iac.py (lines 210-266) as its command trace:
set the project, try to enable the Service Usage API (exiting when the output
reports SERVICE_DISABLED), issue the bulk enable, and issue the bulk enable a
second time (after a 5-second sleep) when its output reports SERVICE_DISABLED
for serviceusage.googleapis.com. -/
def enableApisCmds (su bulk : Option String) : List ECmd :=
  [ECmd.setProject, ECmd.enableServiceUsage]
    ++ (if suDisabled su then []
        else [ECmd.enableBulk] ++ (if bulkRetry bulk then [ECmd.enableBulk] else []))

/-- The GITHUB_API_TOKEN-related gcloud commands of one setup.py run. -/
inductive DCmd where
  | secretDescribe
  | secretCreate
  | secretVersionAdd
  deriving DecidableEq, Repr

/-- Embeds the GITHUB_API_TOKEN commands issued by one interactive setup.py
run that reaches `generate_github_secrets`, in order: the existence check
`gcloud secrets describe GITHUB_API_TOKEN --project=... 2>/dev/null` at line
346, the conditional create/version-add of lines 353-398 (as in
`setupCiLogsProxyCmds`), the byte-identical describe re-issued as the guard of
the grant section at line 402, and the byte-identical describe issued again in
`generate_github_secrets` at line 669.  All three describes are unconditional:
the later two are issued even when the first returned a failure result. -/
def setupSecretCmds (secretCheck : Option String) (updateAnswer tokenInput : String) :
    List DCmd :=
  [DCmd.secretDescribe]
    ++ (if pyTruthy secretCheck then
          (if updateAnswer.trim.toLower = "y" && tokenInput != "" then
            [DCmd.secretVersionAdd]
          else [])
        else
          (if tokenInput != "" then [DCmd.secretCreate, DCmd.secretVersionAdd] else []))
    ++ [DCmd.secretDescribe]
    ++ [DCmd.secretDescribe]

/-- The attributes of the `Colors` class in iac.py (lines 35-40). -/
def colorsAttrs : List (String × String) :=
  [("GREEN", "\x1b[0;32m"), ("YELLOW", "\x1b[1;33m"), ("BLUE", "\x1b[0;34m"),
   ("RED", "\x1b[0;31m"), ("NC", "\x1b[0m")]

/-- Python attribute access `Colors.X`: raises `AttributeError` when the class
defines no such attribute. -/
def colorsGetattr (attrName : String) : Except PyErr String :=
  match colorsAttrs.find? (fun kv => kv.1 == attrName) with
  | some kv => .ok kv.2
  | none => .error .attributeError

/-- Embeds the early-return guard of `initialize_firebase` (iac.py lines
782-797): the curl output is truthy and its last line (the appended HTTP status
code) equals "200". -/
def fbAlreadyInit (checkResult : Option String) : Bool :=
  match checkResult with
  | none => false
  | some s => (s != "") && ((s.trim.splitOn "\n").getLastD "") == "200"

/-- The REST calls issued by `initialize_firebase`. -/
inductive FbCmd where
  | describeProject
  | addFirebase
  deriving DecidableEq, Repr

/-- Embeds `initialize_firebase` of iac.py (lines 768-850): the describe call,
the early return when Firebase is already initialized (HTTP 200), otherwise the
addFirebase POST whose outcome is only printed (all JSON handling of
`addResult` sits inside bare `try`/`except` blocks), followed by the final
informational print block which evaluates `Colors.INFO` (line 847) — an
attribute the `Colors` class does not define. -/
def initFirebaseRun (checkResult _addResult : Option String) :
    List FbCmd × Except PyErr Unit :=
  if fbAlreadyInit checkResult then
    ([FbCmd.describeProject], Except.ok ())
  else
    ([FbCmd.describeProject, FbCmd.addFirebase],
     match colorsGetattr "INFO" with
     | .ok _ => Except.ok ()
     | .error e => Except.error e)

/-- Embeds the broad exception handling of iac.py's `main` (lines 1220-1224):
a `KeyboardInterrupt` exits with status 1, and any other exception reaches
`print_error`, which calls `sys.exit(1)`. -/
def mainBroadHandlerExit : Except PyErr Unit → Nat
  | .ok _ => 0
  | .error _ => 1

/-- A GitHub workflow-run record, with the fields the scripts read.  Fields
read via `.get` or that JSON may set to `null` are optional. -/
structure Run where
  id : Nat
  name : String
  head_branch : Option String
  status : Option String
  conclusion : Option String
  head_sha : String
  created_at : String
  html_url : String
  deriving DecidableEq, Repr

/-- The `status_emoji` lookup of `format_workflow` with its default. -/
def statusEmoji : Option String → String
  | some "success" => "✅"
  | some "failure" => "❌"
  | some "cancelled" => "⚠️"
  | some "in_progress" => "🔄"
  | some "queued" => "⏳"
  | _ => "❓"

/-- Embeds `format_workflow` (claudetool/check_workflows.py lines 40-69):
emoji keyed by `conclusion or status`, the header lines, a Result line only for
a truthy conclusion, then commit (first 7 characters of the sha), start time
and URL, joined with newlines. -/
def formatWorkflow (r : Run) : String :=
  let emoji := statusEmoji (pyOrStr r.conclusion r.status)
  let lines := [emoji ++ " " ++ r.name,
                "   Branch: " ++ pyShowOpt r.head_branch,
                "   Status: " ++ pyShowOpt r.status]
  let lines := lines
    ++ (match r.conclusion with
        | some c => if c = "" then [] else ["   Result: " ++ c]
        | none => [])
  let lines := lines
    ++ ["   Commit: " ++ r.head_sha.take 7,
        "   Started: " ++ r.created_at,
        "   URL: " ++ r.html_url]
  String.intercalate "\n" lines

/-- Embeds `check_workflows` of claudetool/check_workflows.py (lines 72-106).
Inputs: the token (`get_github_token` result), the fetch outcome (an exception
or the run list), the branch filter and the count.  Output: the returned
boolean, the formatted texts printed (in print order), and how many times
`fetch_workflows` was called. -/
def checkWorkflowsRun (token : Option String) (fetch : Except Unit (List Run))
    (branch : Option String) (count : Nat) : Bool × List String × Nat :=
  if pyTruthy token then
    match fetch with
    | .error _ => (false, [], 1)
    | .ok runs =>
        let filtered :=
          if pyTruthy branch then runs.filter (fun r => r.head_branch == branch) else runs
        if pyTruthy branch && filtered.isEmpty then (false, [], 1)
        else
          let kept := filtered.take count
          let printed := kept.foldl (fun acc r => acc ++ [formatWorkflow r]) []
          (true, printed, 1)
  else (false, [], 0)

/-- One iteration's input to the monitor loop of `monitor_workflows`: a
successful fetch yielding the run list, an exception raised while fetching or
processing, or a `KeyboardInterrupt`. -/
inductive PollEvent where
  | runs (rs : List Run)
  | exn
  | interrupt
  deriving DecidableEq, Repr

/-- Embeds `if branch: runs = [r for r in runs if r.get('head_branch') == branch]`
shared by both monitor copies. -/
def filterBranch (branch : Option String) (rs : List Run) : List Run :=
  if pyTruthy branch then rs.filter (fun r => r.head_branch == branch) else rs

/-- One iteration of the claudetool/check_workflows.py monitor loop (lines
124-174): `KeyboardInterrupt` returns True; any other exception is caught and
the loop continues; an empty (filtered) run list continues; otherwise the
latest run returns True on conclusion success, False on conclusion failure,
and continues in every other case.  `some b` means the loop returns `b`,
`none` means it sleeps and polls again. -/
def stepCT (branch : Option String) : PollEvent → Option Bool
  | .interrupt => some true
  | .exn => none
  | .runs rs =>
      match filterBranch branch rs with
      | [] => none
      | r :: _ =>
          if r.conclusion = some "success" then some true
          else if r.conclusion = some "failure" then some false
          else none

/-- One iteration of the claudeweb/claudetool/check_workflows.py monitor loop
(lines 146-209): as stepCT, except termination requires status "completed";
a completed run returns True on conclusion success and False on any other
non-null conclusion (failure, cancelled, skipped, ...), while a completed run
with a null conclusion raises on `conclusion.upper()`, is caught by the
blanket handler, and the loop continues. -/
def stepWeb (branch : Option String) : PollEvent → Option Bool
  | .interrupt => some true
  | .exn => none
  | .runs rs =>
      match filterBranch branch rs with
      | [] => none
      | r :: _ =>
          if r.status = some "completed" then
            match r.conclusion with
            | none => none
            | some c => if c = "success" then some true else some false
          else none

/-- The claudetool monitor loop run over a finite sequence of poll events:
`some b` when it returns `b` within the sequence, `none` when it consumes the
whole sequence without returning. -/
def monitorResultCT (branch : Option String) : List PollEvent → Option Bool
  | [] => none
  | e :: rest =>
      match stepCT branch e with
      | some b => some b
      | none => monitorResultCT branch rest

/-- The claudeweb monitor loop run over a finite sequence of poll events. -/
def monitorResultWeb (branch : Option String) : List PollEvent → Option Bool
  | [] => none
  | e :: rest =>
      match stepWeb branch e with
      | some b => some b
      | none => monitorResultWeb branch rest

/-- The durations passed to `time.sleep` by the claudetool monitor loop over a
finite sequence of poll events: every non-returning iteration (lines 167 and
174) sleeps `interval`; a returning iteration does not sleep. -/
def monitorSleepsCT (branch : Option String) (interval : Nat) :
    List PollEvent → List Nat
  | [] => []
  | e :: rest =>
      match stepCT branch e with
      | some _ => []
      | none => interval :: monitorSleepsCT branch interval rest

/-- Whether a poll-event sequence contains a `KeyboardInterrupt`. -/
def hasInterrupt : List PollEvent → Bool
  | [] => false
  | .interrupt :: _ => true
  | _ :: rest => hasInterrupt rest

/-- The argparse default of `--interval` in claudetool/check_workflows.py
(line 197). -/
def defaultMonitorInterval : Nat := 10

/-- A latest run on which the two monitor copies take the same decision: when
its conclusion is success or failure its status is "completed", and when its
status is "completed" its conclusion is null, success or failure. -/
def consistentRun (r : Run) : Bool :=
  if r.status = some "completed" then
    decide (r.conclusion = none) || decide (r.conclusion = some "success")
      || decide (r.conclusion = some "failure")
  else
    !(decide (r.conclusion = some "success") || decide (r.conclusion = some "failure"))

/-- A poll event on which the two monitor copies take the same decision. -/
def agreeEvent (branch : Option String) : PollEvent → Bool
  | .runs rs =>
      match filterBranch branch rs with
      | [] => true
      | r :: _ => consistentRun r
  | _ => true

/-- A workflow run that completed with conclusion "cancelled". -/
def cancelledRun : Run :=
  { id := 1, name := "Deploy", head_branch := some "main",
    status := some "completed", conclusion := some "cancelled",
    head_sha := "abc1234def", created_at := "2024-01-01T00:00:00Z",
    html_url := "https://github.com/rumor-ml/commons.systems/actions/runs/1" }

/-- A poll event whose latest run completed with conclusion "cancelled". -/
def cancelledEvent : PollEvent := .runs [cancelledRun]

/-- A workflow run that completed with conclusion "success". -/
def successRun : Run :=
  { id := 2, name := "Deploy", head_branch := some "main",
    status := some "completed", conclusion := some "success",
    head_sha := "def5678abc", created_at := "2024-01-02T00:00:00Z",
    html_url := "https://github.com/rumor-ml/commons.systems/actions/runs/2" }

/-- The result of `check_artifact_registry` in debug_gcp_deployment.py (lines
44-63): a list of repository resource names, or an error string such as
"PERMISSION_DENIED". -/
inductive ARResult where
  | listing (names : List String)
  | errorResult (s : String)
  deriving DecidableEq, Repr

/-- Python `name.split('/')[-1]`, as used on repository resource names. -/
def lastSegment (s : String) : String :=
  (s.splitOn "/").getLastD ""

/-- Embeds the recommendations list built by `main` of debug_gcp_deployment.py
(lines 160-191): an enable recommendation for each of the Cloud Run and
Artifact Registry APIs whose check did not report `True`, and — only when the
repository listing returned a list — a create recommendation for each of the
two fellspiral repositories missing from it. -/
def debugRecommendations (runApi arApi : Option Bool) (arRes : ARResult) :
    List String :=
  (if runApi = some true then [] else ["Cloud Run API not enabled"])
    ++ (if arApi = some true then [] else ["Artifact Registry API not enabled"])
    ++ (match arRes with
        | .listing names =>
            let repoNames := names.map lastSegment
            (if repoNames.contains "fellspiral-previews" then []
             else ["fellspiral-previews repository missing"])
              ++ (if repoNames.contains "fellspiral-production" then []
                  else ["fellspiral-production repository missing"])
        | .errorResult _ => [])

/-- Embeds `main` of debug_gcp_deployment.py (lines 86-201): exit code 1 when
no token is acquired; otherwise exit code 0 with the "All prerequisites met!"
print exactly when the recommendations list is empty, else exit code 1.  The
Cloud Build API status and the Cloud Run services listing are printed but do
not feed the recommendations. -/
def debugMainRun (token : Option String) (runApi arApi _cbApi : Option Bool)
    (arRes _svcRes : ARResult) : Nat × Bool :=
  if pyTruthy token then
    if debugRecommendations runApi arApi arRes = [] then (0, true) else (1, false)
  else (1, false)

/-- Filesystem and process effects of `run_terraform` in iac.py. -/
inductive TfEffect where
  | chdir (dir : String)
  | writeFile (fileName content : String)
  | cmd (c : String)
  | chdirBack
  deriving DecidableEq, Repr

/-- The content written to terraform.tfvars by `run_terraform` (iac.py lines
1083-1086). -/
def tfvarsContent (projectId : String) : String :=
  "project_id  = \"" ++ projectId ++ "\"\n"
    ++ "region      = \"us-central1\"\n"
    ++ "environment = \"production\"\n"

/-- Embeds `run_terraform` of iac.py (lines 1072-1110) as its effect trace:
change into the terraform directory, write terraform.tfvars, run the four
terraform commands, and change back to the original directory. -/
def runTerraformTrace (projectId terraformDir : String) : List TfEffect :=
  [TfEffect.chdir terraformDir,
   TfEffect.writeFile "terraform.tfvars" (tfvarsContent projectId),
   TfEffect.cmd "terraform init -reconfigure",
   TfEffect.cmd "terraform validate -no-color",
   TfEffect.cmd "terraform plan -no-color -out=tfplan",
   TfEffect.cmd "terraform apply -auto-approve tfplan",
   TfEffect.chdirBack]

/-- Whether an effect writes a file to the local filesystem. -/
def tfIsFileWrite : TfEffect → Bool
  | .writeFile _ _ => true
  | _ => false

/-!
Helper lemmas.
-/

/-- The `Colors` class defines no `INFO` attribute, so `Colors.INFO` raises. -/
theorem colorsInfoMissing : colorsGetattr "INFO" = Except.error PyErr.attributeError := rfl

/-- Accumulating prints one at a time in a fold equals mapping the formatter
over the list. -/
theorem foldl_append_formatWorkflow (l : List Run) (acc : List String) :
    l.foldl (fun a r => a ++ [formatWorkflow r]) acc = acc ++ l.map formatWorkflow := by
  induction l generalizing acc with
  | nil => simp
  | cons r rest ih => simp [List.foldl_cons, ih]

/-!
C10: local filesystem effects.
-/

/-- C10 counterexample: the claim states that no file is written to the local
filesystem during a run, but `run_terraform` in iac.py writes terraform.tfvars
on every run (here at project "chalanding"). -/
theorem c10_counterexample :
    ¬ ((runTerraformTrace "chalanding" "infrastructure/terraform").filter tfIsFileWrite
        = []) := by
  decide

/-- C10 (amended): the only direct file write performed by the scripts is in
iac.py's `run_terraform`, which writes exactly the terraform.tfvars file with
the project id, region and environment lines. -/
theorem c10_amended (projectId terraformDir : String) :
    (runTerraformTrace projectId terraformDir).filter tfIsFileWrite
      = [TfEffect.writeFile "terraform.tfvars" (tfvarsContent projectId)] := rfl

/-!
C4: the `Colors.INFO` crash in `initialize_firebase`.
-/

/-- C4: every execution of `initialize_firebase` that does not take the early
return at the "Firebase is already initialized" check (HTTP 200) raises
`AttributeError` at the final informational print block, because `Colors`
defines no `INFO` attribute; in interactive mode the exception reaches main's
broad handler and the process exits with status 1. -/
theorem c4_firebase_info_crash (check add : Option String)
    (h : fbAlreadyInit check = false) :
    (initFirebaseRun check add).2 = Except.error PyErr.attributeError
  ∧ mainBroadHandlerExit (initFirebaseRun check add).2 = 1 := by
  constructor <;> simp [initFirebaseRun, h, colorsInfoMissing, mainBroadHandlerExit]

/-- C4 witness: a failed describe call (command output `None`) does not take
the early return, so the crash and exit status 1 occur. -/
theorem c4_witness :
    fbAlreadyInit none = false
  ∧ ((initFirebaseRun none none).2 = Except.error PyErr.attributeError
      ∧ mainBroadHandlerExit (initFirebaseRun none none).2 = 1) :=
  ⟨rfl, c4_firebase_info_crash none none rfl⟩

/-!
C3: retries of failed external commands.
-/

/-- C3 counterexample: the claim states that apart from the monitor loop every
shell-out is attempted at most once per run with no retry after a failure
result, but `enable_apis` in iac.py issues the bulk `gcloud services enable`
command a second time when its first output reports SERVICE_DISABLED for
serviceusage.googleapis.com. -/
theorem c3_counterexample :
    ¬ ((enableApisCmds (some "Operation finished successfully.")
          (some "ERROR: SERVICE_DISABLED: serviceusage.googleapis.com is not enabled")).count
        ECmd.enableBulk ≤ 1) := by
  decide

/-- C3 (amended): the setup scripts do re-issue external commands.  In
iac.py's `enable_apis` the bulk enable command is issued twice exactly when
the Service Usage pre-check passed and the bulk attempt's output reports
SERVICE_DISABLED for serviceusage.googleapis.com (never more than twice, and
every other command of that function exactly once); and one setup.py run
issues the identical GITHUB_API_TOKEN secret describe command three times —
in particular twice more after a first attempt that reported failure — so no
at-most-once-per-run guarantee holds for the scripts' shell-outs. -/
theorem c3_amended (su bulk secretCheck : Option String)
    (updateAnswer tokenInput : String) :
    ((enableApisCmds su bulk).count ECmd.enableBulk
        = (if suDisabled su then 0 else if bulkRetry bulk then 2 else 1)
      ∧ (enableApisCmds su bulk).count ECmd.setProject = 1
      ∧ (enableApisCmds su bulk).count ECmd.enableServiceUsage = 1)
  ∧ (setupSecretCmds secretCheck updateAnswer tokenInput).count DCmd.secretDescribe
      = 3 := by
  constructor
  · cases h1 : suDisabled su <;> cases h2 : bulkRetry bulk <;>
      simp [enableApisCmds, h1, h2]
  · cases h1 : pyTruthy secretCheck <;>
      by_cases h2 : updateAnswer.trim.toLower = "y" <;>
      cases h3 : (tokenInput != "") <;>
      simp [setupSecretCmds, h1, h2, h3]

/-!
C8: exit code of debug_gcp_deployment.main.
-/

/-- C8: with a token acquired, `main` of debug_gcp_deployment.py returns exit
code 0 and prints "All prerequisites met!" exactly when its recommendations
list is empty; in particular a repository listing failing with
PERMISSION_DENIED while the Cloud Run, Artifact Registry and Cloud Build API
checks report enabled still yields exit code 0. -/
theorem c8_debug_exit_zero_iff (token : Option String) (runApi arApi cbApi : Option Bool)
    (arRes svcRes : ARResult) (h : pyTruthy token = true) :
    ((debugMainRun token runApi arApi cbApi arRes svcRes = (0, true))
        ↔ debugRecommendations runApi arApi arRes = [])
  ∧ debugMainRun (some "gcp-access-token") (some true) (some true) (some true)
      (ARResult.errorResult "PERMISSION_DENIED") (ARResult.listing []) = (0, true) := by
  constructor
  · by_cases hr : debugRecommendations runApi arApi arRes = [] <;>
      simp [debugMainRun, h, hr]
  · decide

/-- C8 witness: the PERMISSION_DENIED listing with all APIs enabled satisfies
the hypothesis and yields exit code 0 with the success print. -/
theorem c8_witness :
    pyTruthy (some "gcp-access-token") = true
  ∧ ((debugMainRun (some "gcp-access-token") (some true) (some true) (some true)
        (ARResult.errorResult "PERMISSION_DENIED") (ARResult.listing []) = (0, true))
      ↔ debugRecommendations (some true) (some true)
          (ARResult.errorResult "PERMISSION_DENIED") = []) :=
  ⟨rfl, (c8_debug_exit_zero_iff (some "gcp-access-token") (some true) (some true)
      (some true) (ARResult.errorResult "PERMISSION_DENIED") (ARResult.listing []) rfl).1⟩

/-!
C1: creation gated on existence checks.
-/

/-- C1 counterexample: the claim states that each create command is issued if
and only if the preceding existence check reported the resource absent, but
when the GITHUB_API_TOKEN secret describe reports the secret absent and the
user supplies an empty token, `setup_ci_logs_proxy` issues no
`gcloud secrets create`. -/
theorem c1_counterexample :
    ¬ ((SCmd.createSecret ∈ setupCiLogsProxyCmds none none none none "" "")
        ↔ pyTruthy none = false) := by
  decide

/-- C1 (amended): for the Workload Identity pool, the provider, the service
account, each Artifact Registry repository and the Terraform state bucket, the
create command is issued exactly when the preceding describe reported the
resource absent (so never when it reported it present); for the
GITHUB_API_TOKEN secret, the create is issued exactly when the describe
reported it absent and the user supplied a non-empty token. -/
theorem c1_amended (poolC provC saC repoC prodC prevC secretC bucketC : Option String)
    (fetch : FetchResult) (member updAns token : String) :
    ((SCmd.createPool ∈ setupWorkloadIdentityCmds poolC provC) ↔ pyTruthy poolC = false)
  ∧ ((SCmd.createProvider ∈ setupWorkloadIdentityCmds poolC provC)
      ↔ pyTruthy provC = false)
  ∧ ((SCmd.createSA ∈ (createServiceAccountRun saC fetch member).1)
      ↔ pyTruthy saC = false)
  ∧ ((SCmd.createRepo "cloud-run-images"
        ∈ setupCiLogsProxyCmds repoC prodC prevC secretC updAns token)
      ↔ pyTruthy repoC = false)
  ∧ ((SCmd.createRepo "fellspiral-production"
        ∈ setupCiLogsProxyCmds repoC prodC prevC secretC updAns token)
      ↔ pyTruthy prodC = false)
  ∧ ((SCmd.createRepo "fellspiral-previews"
        ∈ setupCiLogsProxyCmds repoC prodC prevC secretC updAns token)
      ↔ pyTruthy prevC = false)
  ∧ ((SCmd.createBucket ∈ createTerraformStateBucketCmds bucketC)
      ↔ pyTruthy bucketC = false)
  ∧ ((SCmd.createSecret ∈ setupCiLogsProxyCmds repoC prodC prevC secretC updAns token)
      ↔ (pyTruthy secretC = false ∧ token ≠ "")) := by
  refine ⟨?_, ?_, ?_, ?_, ?_, ?_, ?_, ?_⟩
  · unfold setupWorkloadIdentityCmds
    cases h1 : pyTruthy poolC <;> cases h2 : pyTruthy provC <;> simp [h1, h2]
  · unfold setupWorkloadIdentityCmds
    cases h1 : pyTruthy poolC <;> cases h2 : pyTruthy provC <;> simp [h1, h2]
  · unfold createServiceAccountRun
    rcases hbe : bindingExists fetch member with e | b
    · cases h : pyTruthy saC <;> simp [hbe, h]
    · cases b <;> cases h : pyTruthy saC <;> simp [hbe, h]
  · unfold setupCiLogsProxyCmds
    split_ifs <;> simp_all
  · unfold setupCiLogsProxyCmds
    split_ifs <;> simp_all
  · unfold setupCiLogsProxyCmds
    split_ifs <;> simp_all
  · unfold createTerraformStateBucketCmds
    cases h : pyTruthy bucketC <;> simp [h]
  · unfold setupCiLogsProxyCmds
    split_ifs <;> simp_all

/-!
C2: the workload-identity binding scan.
-/

/-- On a list of well-formed bindings the Python scan raises nothing and finds
a binding exactly when one matches. -/
theorem scanBindingList_wf (member : String) :
    ∀ (bs : List PyJson) (found : Bool), bs.all wfBinding = true →
      scanBindingList member found bs = .ok (found || bs.any (matchBinding member)) := by
  intro bs
  induction bs with
  | nil => intro found _; simp [scanBindingList]
  | cons b rest ih =>
    intro found h
    rw [List.all_cons, Bool.and_eq_true] at h
    obtain ⟨hb, hrest⟩ := h
    cases b with
    | obj bf =>
      by_cases hrole :
          ((objLookup bf "role").getD PyJson.null).eqStr "roles/iam.workloadIdentityUser"
            = true
      · simp only [wfBinding] at hb
        cases hm : (objLookup bf "members").getD (PyJson.arr []) with
        | arr ms =>
          have hmatch : matchBinding member (PyJson.obj bf)
              = ms.any fun m => m.eqStr member := by
            simp [matchBinding, hm, hrole]
          simp only [scanBindingList, pyDictGet]
          rw [if_pos hrole, hm]
          simp only [pyIter]
          rw [ih _ hrest, List.any_cons, hmatch, Bool.or_assoc]
        | null => rw [hm] at hb; simp at hb
        | bool bb => rw [hm] at hb; simp at hb
        | num n => rw [hm] at hb; simp at hb
        | str s => rw [hm] at hb; simp at hb
        | obj fs => rw [hm] at hb; simp at hb
      · have hrole' : ((objLookup bf "role").getD PyJson.null).eqStr
            "roles/iam.workloadIdentityUser" = false := by
          simpa using hrole
        have hmatch : matchBinding member (PyJson.obj bf) = false := by
          simp [matchBinding, hrole']
        simp only [scanBindingList, pyDictGet]
        rw [if_neg hrole]
        rw [ih _ hrest, List.any_cons, hmatch, Bool.false_or]
    | null => simp [wfBinding] at hb
    | bool bb => simp [wfBinding] at hb
    | num n => simp [wfBinding] at hb
    | str s => simp [wfBinding] at hb
    | arr xs => simp [wfBinding] at hb

/-- On a well-formed fetch result, `binding_exists` raises nothing and equals
the specification-side scan. -/
theorem bindingExists_wf (fetch : FetchResult) (member : String)
    (h : wfFetch fetch = true) :
    bindingExists fetch member = .ok (specFindsBinding fetch member) := by
  cases fetch with
  | empty => rfl
  | undecodable => rfl
  | decoded j =>
    cases j with
    | obj fields =>
      cases hl : (objLookup fields "bindings").getD (PyJson.arr []) with
      | arr bs =>
        have hall : bs.all wfBinding = true := by
          simp only [wfFetch, wfPolicy] at h
          rw [hl] at h
          exact h
        simp only [bindingExists, scanBindings, pyDictGet]
        rw [hl]
        simp only [pyIter]
        rw [scanBindingList_wf member bs false hall, Bool.false_or]
        simp only [specFindsBinding]
        rw [hl]
      | null => exfalso; simp only [wfFetch, wfPolicy] at h; rw [hl] at h; simp at h
      | bool bb => exfalso; simp only [wfFetch, wfPolicy] at h; rw [hl] at h; simp at h
      | num n => exfalso; simp only [wfFetch, wfPolicy] at h; rw [hl] at h; simp at h
      | str s => exfalso; simp only [wfFetch, wfPolicy] at h; rw [hl] at h; simp at h
      | obj fs => exfalso; simp only [wfFetch, wfPolicy] at h; rw [hl] at h; simp at h
    | null => simp [wfFetch, wfPolicy] at h
    | bool bb => simp [wfFetch, wfPolicy] at h
    | num n => simp [wfFetch, wfPolicy] at h
    | str s => simp [wfFetch, wfPolicy] at h
    | arr xs => simp [wfFetch, wfPolicy] at h

/-- C2 counterexample: the claim states that the add command is issued if and
only if the scan finds no matching binding, but when the fetched policy text
is "[1]" (valid JSON that is not an object) the scan raises an uncaught
AttributeError, the function aborts, and the add command is not issued even
though no matching binding was found. -/
theorem c2_counterexample :
    ¬ ((SCmd.addBinding ∈ (createServiceAccountRun (some "sa-exists")
            (FetchResult.decoded (PyJson.arr [PyJson.num 1])) "m").1)
        ↔ specFindsBinding (FetchResult.decoded (PyJson.arr [PyJson.num 1])) "m" = false)
  ∧ (createServiceAccountRun (some "sa-exists")
        (FetchResult.decoded (PyJson.arr [PyJson.num 1])) "m").2
      = some PyErr.attributeError := by
  constructor
  · decide
  · decide

/-- C2 (amended): whenever the fetched policy text is empty, fails to decode,
or decodes to a JSON object whose bindings value is a list of objects with
list-valued members, the add-iam-policy-binding command is issued exactly when
the scan finds no binding with role `roles/iam.workloadIdentityUser` whose
members contain the expected principalSet member, and no exception escapes;
in particular an empty or undecodable fetch still issues the add. -/
theorem c2_amended (saCheck : Option String) (fetch : FetchResult) (member : String)
    (h : wfFetch fetch = true) :
    ((SCmd.addBinding ∈ (createServiceAccountRun saCheck fetch member).1)
        ↔ specFindsBinding fetch member = false)
  ∧ (createServiceAccountRun saCheck fetch member).2 = none := by
  have hbe := bindingExists_wf fetch member h
  unfold createServiceAccountRun
  rw [hbe]
  cases hs : specFindsBinding fetch member <;>
    cases hp : pyTruthy saCheck <;> simp [hp]

/-- C2 witness: an empty fetch (the policy command produced no output) is
well-formed, no binding is found, and the add command is issued with no
exception. -/
theorem c2_witness :
    wfFetch FetchResult.empty = true
  ∧ (((SCmd.addBinding ∈ (createServiceAccountRun none FetchResult.empty "m").1)
        ↔ specFindsBinding FetchResult.empty "m" = false)
      ∧ (createServiceAccountRun none FetchResult.empty "m").2 = none) :=
  ⟨rfl, c2_amended none FetchResult.empty "m" rfl⟩

/-!
C5, C6, C7: the monitor loops.
-/

/-- On a poll event satisfying `agreeEvent`, both monitor copies take the same
decision. -/
theorem stepAgree (b : Option String) (e : PollEvent) (h : agreeEvent b e = true) :
    stepCT b e = stepWeb b e := by
  cases e with
  | interrupt => rfl
  | exn => rfl
  | runs rs =>
    cases hf : filterBranch b rs with
    | nil => simp [stepCT, stepWeb, hf]
    | cons r rest =>
      have hcons : consistentRun r = true := by
        simp only [agreeEvent, hf] at h
        exact h
      simp only [stepCT, stepWeb, hf]
      unfold consistentRun at hcons
      by_cases hs : r.status = some "completed"
      · rw [if_pos hs] at hcons
        rw [if_pos hs]
        simp only [Bool.or_eq_true, decide_eq_true_eq] at hcons
        rcases hcons with (hc | hc) | hc <;> simp [hc]
      · rw [if_neg hs] at hcons
        rw [if_neg hs]
        simp at hcons
        rw [if_neg hcons.1, if_neg hcons.2]

/-- C5 counterexample: the claim states the two copies of `monitor_workflows`
are observationally equivalent and that on a run completed with conclusion
cancelled both terminate with the same value; in fact on that input the
claudeweb copy terminates returning False while the claudetool copy keeps
polling (consumes the trace without returning). -/
theorem c5_counterexample :
    monitorResultCT none [cancelledEvent] = none
  ∧ monitorResultWeb none [cancelledEvent] = some false
  ∧ monitorResultCT none [cancelledEvent] ≠ monitorResultWeb none [cancelledEvent] := by
  refine ⟨by decide, by decide, by decide⟩

/-- C5 (amended): the two copies agree (same termination, same boolean) on
every poll trace in which each inspected latest run is consistent — its
conclusion is success or failure exactly when its status is completed (a null
conclusion on a completed run is also fine); on a run completed with any
other conclusion (e.g. cancelled) they differ: the claudeweb copy returns
False at once while the claudetool copy polls on indefinitely. -/
theorem c5_amended :
    (∀ (b : Option String) (evs : List PollEvent),
        (∀ e ∈ evs, agreeEvent b e = true) →
          monitorResultCT b evs = monitorResultWeb b evs)
  ∧ (∀ n : Nat, monitorResultCT none (List.replicate n cancelledEvent) = none)
  ∧ monitorResultWeb none [cancelledEvent] = some false := by
  refine ⟨?_, ?_, by decide⟩
  · intro b evs hall
    induction evs with
    | nil => rfl
    | cons e rest ih =>
      have h1 := stepAgree b e (hall e (List.mem_cons_self e rest))
      have h2 := ih (fun e' he' => hall e' (List.mem_cons_of_mem _ he'))
      simp only [monitorResultCT, monitorResultWeb]
      rw [h1, h2]
  · intro n
    have hstep : stepCT none cancelledEvent = none := by decide
    induction n with
    | zero => rfl
    | succ n ih =>
      simp only [List.replicate_succ, monitorResultCT, hstep]
      exact ih

/-- C5 witness: a trace whose single event is a run completed with conclusion
success satisfies the consistency hypothesis, and the two copies agree on it. -/
theorem c5_witness :
    (∀ e ∈ [PollEvent.runs [successRun]], agreeEvent none e = true)
  ∧ monitorResultCT none [PollEvent.runs [successRun]]
      = monitorResultWeb none [PollEvent.runs [successRun]] :=
  ⟨by decide, c5_amended.1 none [PollEvent.runs [successRun]] (by decide)⟩

/-- C6: in both monitor copies an exception raised while fetching or
processing (other than KeyboardInterrupt) is caught and the loop continues:
the exception never terminates the loop (its step decision is to continue)
and never changes the eventual return value (deleting it from the trace
leaves the result unchanged). -/
theorem c6_monitor_exn_transparent (b : Option String) (pre post : List PollEvent) :
    monitorResultCT b (pre ++ PollEvent.exn :: post) = monitorResultCT b (pre ++ post)
  ∧ monitorResultWeb b (pre ++ PollEvent.exn :: post) = monitorResultWeb b (pre ++ post)
  ∧ stepCT b PollEvent.exn = none
  ∧ stepWeb b PollEvent.exn = none := by
  refine ⟨?_, ?_, rfl, rfl⟩
  · induction pre with
    | nil => rfl
    | cons e pre ih =>
      simp only [List.cons_append, monitorResultCT]
      cases h : stepCT b e with
      | some bb => rfl
      | none => exact ih
  · induction pre with
    | nil => rfl
    | cons e pre ih =>
      simp only [List.cons_append, monitorResultWeb]
      cases h : stepWeb b e with
      | some bb => rfl
      | none => exact ih

/-- C7: the claudetool monitor loop sleeps the same fixed interval on every
non-returning iteration (and the argparse default of that interval is 10
seconds), and while no event yields a terminal decision the loop returns
exactly when a KeyboardInterrupt arrives, in which case it returns True
(after printing the stop message). -/
theorem c7_monitor_interval (b : Option String) (i : Nat) (evs : List PollEvent) :
    (∀ d ∈ monitorSleepsCT b i evs, d = i)
  ∧ defaultMonitorInterval = 10
  ∧ ((∀ e ∈ evs, e = PollEvent.interrupt ∨ stepCT b e = none) →
      monitorResultCT b evs = (if hasInterrupt evs then some true else none)) := by
  refine ⟨?_, rfl, ?_⟩
  · induction evs with
    | nil => simp [monitorSleepsCT]
    | cons e rest ih =>
      simp only [monitorSleepsCT]
      cases h : stepCT b e with
      | some bb => simp
      | none =>
        intro d hd
        rcases List.mem_cons.mp hd with h1 | h2
        · exact h1
        · exact ih d h2
  · induction evs with
    | nil => intro _; rfl
    | cons e rest ih =>
      intro hall
      have hrest : ∀ e' ∈ rest, e' = PollEvent.interrupt ∨ stepCT b e' = none :=
        fun e' he' => hall e' (List.mem_cons_of_mem _ he')
      have htail := ih hrest
      rcases hall e (List.mem_cons_self e rest) with hi | hstep
      · subst hi
        simp [monitorResultCT, stepCT, hasInterrupt]
      · have hhead : hasInterrupt (e :: rest) = hasInterrupt rest := by
          cases e with
          | interrupt => simp [stepCT] at hstep
          | runs rs => rfl
          | exn => rfl
        simp only [monitorResultCT, hstep, htail, hhead]

/-- C7 witness: a trace of one caught exception followed by a
KeyboardInterrupt sleeps the interval once (with value 7 here) and returns
True on the interrupt. -/
theorem c7_witness :
    (∀ d ∈ monitorSleepsCT none 7 [PollEvent.exn, PollEvent.interrupt], d = 7)
  ∧ monitorResultCT none [PollEvent.exn, PollEvent.interrupt] = some true := by
  refine ⟨(c7_monitor_interval none 7 [PollEvent.exn, PollEvent.interrupt]).1, ?_⟩
  have h := (c7_monitor_interval none 7 [PollEvent.exn, PollEvent.interrupt]).2.2
    (by decide)
  rw [h]
  decide

/-!
C9: check_workflows output.
-/

/-- C9 counterexample: the claim states that every invocation with a token set
and a successful fetch returns True, but when a branch filter is given and the
(successfully) fetched list contains no run of that branch, `check_workflows`
prints a warning and returns False. -/
theorem c9_counterexample :
    ¬ ((checkWorkflowsRun (some "ghp-token") (Except.ok []) (some "main") 5).1 = true) := by
  decide

/-- C9 (amended): with a token set and a successful fetch, claudetool's
`check_workflows` fetches the run list exactly once and, unless a branch
filter is given and leaves no runs (warning printed, returns False, nothing
formatted), keeps the first `count` runs after the optional branch filter,
formats each kept run and prints them in the order the API returned them,
then returns True. -/
theorem c9_amended (token : Option String) (runs : List Run) (branch : Option String)
    (count : Nat) (h : pyTruthy token = true) :
    checkWorkflowsRun token (Except.ok runs) branch count
      = (let filtered :=
           if pyTruthy branch then runs.filter (fun r => r.head_branch == branch) else runs
         if pyTruthy branch && filtered.isEmpty then (false, [], 1)
         else (true, (filtered.take count).map formatWorkflow, 1)) := by
  simp only [checkWorkflowsRun, h, if_true]
  by_cases hc : (pyTruthy branch
      && (if pyTruthy branch then runs.filter (fun r => r.head_branch == branch)
          else runs).isEmpty) = true
  · simp [hc]
  · simp [hc, foldl_append_formatWorkflow]

/-- C9 witness: with a token, a successful fetch of one run and no branch
filter, the run is formatted and printed and the call returns True. -/
theorem c9_witness :
    pyTruthy (some "ghp-token") = true
  ∧ checkWorkflowsRun (some "ghp-token") (Except.ok [successRun]) none 5
      = (true, [formatWorkflow successRun], 1) := by
  refine ⟨rfl, ?_⟩
  have h := c9_amended (some "ghp-token") [successRun] none 5 rfl
  rw [h]
  simp [pyTruthy]
